import Mathlib

/-!
Verification of the IC base-cities pipeline layer
(`invisible_cities/cities/base_cities.py`).

The classes `City`, `DeconvolutionCity`, `CalibratedCity` and `PmapCity`
are embedded as Lean structures; their constructors and setters become
pure state-transforming functions.  The external numeric collaborators
(the calibration database `load_db`, the deconvolution primitive
`blr.deconv_pmt`, the peak functions `cpf.wfzs`, `cpf.find_S12`,
`cpf.select_sipm` and the sensor-mapping primitive `pmp.sipm_s2_dict`)
are not part of the source under verification; where a property depends
on them they are modelled from the specification, each such definition
carrying a doc comment saying so.  Signal amplitudes and calibration
constants are modelled as rationals, sample indices as naturals.
-/

/-- Modelled from the spec: the unit constants of
`invisible_cities.core.system_of_units_c` (not under src/); `adc` is the
raw-amplitude unit scale factor. -/
def units.adc : Rat := 1

/-- Modelled from the spec: photo-electron unit scale factor of the
system of units (not under src/). -/
def units.pes : Rat := 1

/-- Error taxonomy of the spec (§7): configuration errors for
inconsistent stage parameters, lookup errors for missing calibration,
and the attribute error Python raises on use of an unset parameter. -/
inductive PipelineError where
  | configurationError : String → PipelineError
  | lookupError : String → PipelineError
  | attributeError : String → PipelineError

/-- Row data of the PMT (primary-sensor) calibration table returned by
the database for one run: per-sensor gain, the two baseline-restoration
coefficient arrays and the electronic noise level. -/
structure DataPMTTable where
  adc_to_pes : List Rat
  coeff_c : List Rat
  coeff_blr : List Rat
  noise_rms : List Rat

/-- Row data of the SiPM (secondary-sensor) calibration table returned
by the database for one run: sensor (x, y) positions and gains. -/
structure DataSiPMTable where
  X : List Rat
  Y : List Rat
  adc_to_pes : List Rat

/-- The calibration database `invisible_cities.database.load_db` (not
under src/), abstracted as an arbitrary pair of total lookup functions
from the run identifier to the two calibration tables; quantifying over
this structure quantifies over every lookup for which construction of a
city succeeds. -/
structure LoadDB where
  DataPMT : Int → DataPMTTable
  DataSiPM : Int → DataSiPMTable

/-- The peak-search parameter record `S12Params`, a `namedtuple` with
fields tmin tmax stride lmin lmax rebin.  A `namedtuple` records the
six fields exactly as given. -/
structure S12Params where
  tmin : Rat
  tmax : Rat
  stride : Nat
  lmin : Nat
  lmax : Nat
  rebin : Nat
deriving DecidableEq

/-- State of the base class `City`: run number, print frequency, file
and compression settings, and the seven calibration-context arrays read
from the database. -/
structure City where
  run_number : Int
  nprint : Nat
  input_files : Option (List String)
  output_file : Option String
  compression : String
  xs : List Rat
  ys : List Rat
  adc_to_pes : List Rat
  sipm_adc_to_pes : List Rat
  coeff_c : List Rat
  coeff_blr : List Rat
  noise_rms : List Rat

/-- `City.__init__`: stores the run number and file parameters and
loads the calibration arrays from the database; the primary-sensor gain
is sign-normalized with an absolute value
(`abs(DataPMT.adc_to_pes.values)`). -/
def City.init (db : LoadDB) (run_number : Int) (files_in : Option (List String))
    (file_out : Option String) (compression : String) (nprint : Nat) : City :=
  let DataPMT := db.DataPMT run_number
  let DataSiPM := db.DataSiPM run_number
  { run_number := run_number
    nprint := nprint
    input_files := files_in
    output_file := file_out
    compression := compression
    xs := DataSiPM.X
    ys := DataSiPM.Y
    adc_to_pes := DataPMT.adc_to_pes.map (fun v => |v|)
    sipm_adc_to_pes := DataSiPM.adc_to_pes
    coeff_c := DataPMT.coeff_c
    coeff_blr := DataPMT.coeff_blr
    noise_rms := DataPMT.noise_rms }

/-- The `monte_carlo` property: `self.run_number <= 0`. -/
def City.monte_carlo (c : City) : Bool :=
  c.run_number ≤ 0

/-- `City.set_print`: set the print frequency. -/
def City.set_print (c : City) (nprint : Nat) : City :=
  { c with nprint := nprint }

/-- `City.set_input_files`. -/
def City.set_input_files (c : City) (input_files : Option (List String)) : City :=
  { c with input_files := input_files }

/-- `City.set_output_file`. -/
def City.set_output_file (c : City) (output_file : Option String) : City :=
  { c with output_file := output_file }

/-- `City.set_compression`. -/
def City.set_compression (c : City) (compression : String) : City :=
  { c with compression := compression }

/-- State of `DeconvolutionCity`: a `City` plus the two BLR parameters. -/
structure DeconvolutionCity extends City where
  n_baseline : Nat
  thr_trigger : Rat

/-- `DeconvolutionCity.__init__`: chains `City.__init__` and stores the
BLR parameters. -/
def DeconvolutionCity.init (db : LoadDB) (run_number : Int)
    (files_in : Option (List String)) (file_out : Option String)
    (compression : String) (nprint : Nat) (n_baseline : Nat)
    (thr_trigger : Rat) : DeconvolutionCity :=
  { City.init db run_number files_in file_out compression nprint with
    n_baseline := n_baseline
    thr_trigger := thr_trigger }

/-- `DeconvolutionCity.set_blr`: set the BLR parameters. -/
def DeconvolutionCity.set_blr (d : DeconvolutionCity) (n_baseline : Nat)
    (thr_trigger : Rat) : DeconvolutionCity :=
  { d with n_baseline := n_baseline, thr_trigger := thr_trigger }

/-- Modelled from the spec: the external deconvolution primitive
`invisible_cities.sierpe.blr.deconv_pmt` (not under src/).  Per §4.2 of
the spec, `n_baseline` must not exceed the waveform length; if it does
the stage fails with a Configuration Error; otherwise it returns one
deconvolved waveform per sensor, of the same length as its input.  The
concrete baseline-restoration numerics are declared out of scope by the
spec (§1, §4.2), so the sample values are carried through unchanged;
only the shape contract and the error contract are modelled. -/
def blr.deconv_pmt (RWF : List (List Rat)) (coeff_c coeff_blr : List Rat)
    (n_baseline : Nat) (thr_trigger : Rat) :
    Except PipelineError (List (List Rat)) :=
  if RWF.any (fun wf => wf.length < n_baseline) then
    Except.error (PipelineError.configurationError
      "n_baseline exceeds the waveform length")
  else
    Except.ok (RWF.map (fun wf => wf.map (fun v => v)))

/-- `DeconvolutionCity.deconv_pmt`: deconvolve the PMT raw waveforms
using the calibration-context coefficient arrays and the stored BLR
parameters. -/
def DeconvolutionCity.deconv_pmt (d : DeconvolutionCity)
    (RWF : List (List Rat)) : Except PipelineError (List (List Rat)) :=
  blr.deconv_pmt RWF d.coeff_c d.coeff_blr d.n_baseline d.thr_trigger

/-- State of `CalibratedCity`: a `DeconvolutionCity` plus the csum and
SiPM signal parameters. -/
structure CalibratedCity extends DeconvolutionCity where
  n_MAU : Nat
  thr_MAU : Rat
  thr_csum_s1 : Rat
  thr_csum_s2 : Rat
  n_MAU_sipm : Nat
  thr_sipm : Rat

/-- `CalibratedCity.__init__`: chains `DeconvolutionCity.__init__` and
stores the csum and SiPM parameters. -/
def CalibratedCity.init (db : LoadDB) (run_number : Int)
    (files_in : Option (List String)) (file_out : Option String)
    (compression : String) (nprint : Nat) (n_baseline : Nat)
    (thr_trigger : Rat) (n_MAU : Nat) (thr_MAU : Rat) (thr_csum_s1 : Rat)
    (thr_csum_s2 : Rat) (n_MAU_sipm : Nat) (thr_sipm : Rat) :
    CalibratedCity :=
  { DeconvolutionCity.init db run_number files_in file_out compression
      nprint n_baseline thr_trigger with
    n_MAU := n_MAU
    thr_MAU := thr_MAU
    thr_csum_s1 := thr_csum_s1
    thr_csum_s2 := thr_csum_s2
    n_MAU_sipm := n_MAU_sipm
    thr_sipm := thr_sipm }

/-- `CalibratedCity.set_csum`: set the CSUM parameters. -/
def CalibratedCity.set_csum (c : CalibratedCity) (n_MAU : Nat)
    (thr_MAU : Rat) (thr_csum_s1 : Rat) (thr_csum_s2 : Rat) :
    CalibratedCity :=
  { c with
    n_MAU := n_MAU
    thr_MAU := thr_MAU
    thr_csum_s1 := thr_csum_s1
    thr_csum_s2 := thr_csum_s2 }

/-- `CalibratedCity.set_sipm`: set the SiPM cutoff parameters. -/
def CalibratedCity.set_sipm (c : CalibratedCity) (n_MAU_sipm : Nat)
    (thr_sipm : Rat) : CalibratedCity :=
  { c with thr_sipm := thr_sipm, n_MAU_sipm := n_MAU_sipm }

/-- Modelled from the spec: the external zero-suppression primitive
`invisible_cities.core.peak_functions_c.wfzs` (not under src/).  Per
§4.4 of the spec it converts a calibrated sum signal into parallel
(amplitude, index) sequences retaining exactly the samples strictly
above the threshold, with their original sample indices in the original
order. -/
def cpf.wfzs (wf : List Rat) (threshold : Rat) : List Rat × List Nat :=
  let indices := (List.range wf.length).filter (fun i => threshold < wf.getD i 0)
  (indices.map (fun i => wf.getD i 0), indices)

/-- `CalibratedCity.csum_zs`: zero suppression over the calibrated sum. -/
def CalibratedCity.csum_zs (c : CalibratedCity) (csum : List Rat)
    (threshold : Rat) : List Rat × List Nat :=
  cpf.wfzs csum threshold

/-- State of `PmapCity`: a `CalibratedCity` plus the two optional
peak-search parameter records (both default to `None` in the Python
constructor) and the SiPM mapping threshold. -/
structure PmapCity extends CalibratedCity where
  s1_params : Option S12Params
  s2_params : Option S12Params
  thr_sipm_s2 : Rat

/-- `PmapCity.__init__`: chains `CalibratedCity.__init__` and stores the
peak-search parameters (Python defaults: `s1_params = None`,
`s2_params = None`, `thr_sipm_s2 = 30 * units.pes`). -/
def PmapCity.init (db : LoadDB) (run_number : Int)
    (files_in : Option (List String)) (file_out : Option String)
    (compression : String) (nprint : Nat) (n_baseline : Nat)
    (thr_trigger : Rat) (n_MAU : Nat) (thr_MAU : Rat) (thr_csum_s1 : Rat)
    (thr_csum_s2 : Rat) (n_MAU_sipm : Nat) (thr_sipm : Rat)
    (s1_params : Option S12Params) (s2_params : Option S12Params)
    (thr_sipm_s2 : Rat) : PmapCity :=
  { CalibratedCity.init db run_number files_in file_out compression
      nprint n_baseline thr_trigger n_MAU thr_MAU thr_csum_s1 thr_csum_s2
      n_MAU_sipm thr_sipm with
    s1_params := s1_params
    s2_params := s2_params
    thr_sipm_s2 := thr_sipm_s2 }

/-- `PmapCity.set_pmap_params`: store the peak-search parameters.  The
source performs three plain attribute assignments and no validation. -/
def PmapCity.set_pmap_params (c : PmapCity) (s1_params : Option S12Params)
    (s2_params : Option S12Params) (thr_sipm_s2 : Rat) : PmapCity :=
  { c with
    s1_params := s1_params
    s2_params := s2_params
    thr_sipm_s2 := thr_sipm_s2 }

/-- Modelled from the spec: splitting of the ordered zero-suppressed
(index, energy) stream into stride-contiguous runs (§4.6): a sample
extends the current run when its index is within `stride` of the
previous sample's index, and a larger gap closes the run and starts a
new one; the run still open when the stream is exhausted is closed at
the end. -/
def splitRuns (stride : Nat) : List (Nat × Rat) → List (List (Nat × Rat))
  | [] => []
  | x :: xs =>
    match splitRuns stride xs with
    | [] => [[x]]
    | r :: rs =>
      match r with
      | [] => [x] :: rs
      | y :: _ => if y.1 - x.1 ≤ stride then (x :: r) :: rs else [x] :: r :: rs

/-- Modelled from the spec: the external peak-search primitive
`invisible_cities.core.peak_functions_c.find_S12` (not under src/),
the state machine of §4.6: the (amplitude, index) stream is restricted
to the samples whose time lies within [tmin, tmax] (the sample period
is abstracted to one time unit per sample), grouped into
stride-contiguous runs, and each closed run — including the one open at
stream exhaustion — is accepted as a peak exactly when its sample count
lies within [lmin, lmax], rejected runs being discarded silently.  The
optional rebinning coarsening of accepted peaks is not modelled: peaks
are returned at full resolution as lists of (index, energy) pairs. -/
def cpf.find_S12 (ene : List Rat) (indx : List Nat) (p : S12Params) :
    List (List (Nat × Rat)) :=
  let windowed := (indx.zip ene).filter
    (fun q => p.tmin ≤ (q.1 : Rat) ∧ (q.1 : Rat) ≤ p.tmax)
  (splitRuns p.stride windowed).filter
    (fun r => p.lmin ≤ r.length ∧ r.length ≤ p.lmax)

/-- `PmapCity.find_S12`: runs the peak search once per signal class with
that class's stored parameters.  The Python source unconditionally
evaluates `self.s1_params._asdict()` and `self.s2_params._asdict()`;
when either parameter record is still `None` this attribute access
fails, which is modelled by the error branch. -/
def PmapCity.find_S12 (c : PmapCity) (s1_ene : List Rat) (s1_indx : List Nat)
    (s2_ene : List Rat) (s2_indx : List Nat) :
    Except PipelineError (List (List (Nat × Rat)) × List (List (Nat × Rat))) :=
  match c.s1_params, c.s2_params with
  | some p1, some p2 =>
    Except.ok (cpf.find_S12 s1_ene s1_indx p1, cpf.find_S12 s2_ene s2_indx p2)
  | _, _ =>
    Except.error (PipelineError.attributeError
      "NoneType object has no attribute _asdict")

/-- Modelled from the spec: the external sensor-selection primitive
`invisible_cities.core.peak_functions_c.select_sipm` (not under src/):
`select_sensors(calibrated_waveforms) -> filtered_set` (§6), keeping
the sensors with any nonzero calibrated sample, keyed by sensor
channel. -/
def cpf.select_sipm (sipmzs : List (List Rat)) : List (Nat × List Rat) :=
  sipmzs.enum.filter (fun q => q.2.any (fun v => decide (v ≠ 0)))

/-- Summed calibrated contribution of one sensor waveform over a peak's
time window: the sum of the sensor's samples at the peak's sample
indices (§4.6). -/
def spSum (peak : List (Nat × Rat)) (wf : List Rat) : Rat :=
  (peak.map (fun q => wf.getD q.1 0)).sum

/-- Modelled from the spec: the external sensor-mapping primitive
`invisible_cities.core.pmaps_functions.sipm_s2_dict` (not under src/).
Per §4.6 it maps every secondary-class peak identifier to the map from
sensor channel to that sensor's summed calibrated contribution within
the peak's time window, retaining a sensor only when the summed
contribution exceeds the threshold; a peak with no sensor above
threshold keeps an empty map. -/
def pmp.sipm_s2_dict (SIPM : List (Nat × List Rat))
    (S2 : List (List (Nat × Rat))) (thr : Rat) :
    List (Nat × List (Nat × Rat)) :=
  S2.enum.map (fun pe =>
    (pe.1, SIPM.filterMap (fun sw =>
      let s := spSum pe.2 sw.2
      if thr < s then some (sw.1, s) else none)))

/-- `PmapCity.find_S2Si`: select the SiPM sensors and build the S2Si
map with the stored `thr_sipm_s2` threshold. -/
def PmapCity.find_S2Si (c : PmapCity) (S2 : List (List (Nat × Rat)))
    (sipmzs : List (List Rat)) : List (Nat × List (Nat × Rat)) :=
  pmp.sipm_s2_dict (cpf.select_sipm sipmzs) S2 c.thr_sipm_s2

/-- A concrete calibration database used to instantiate the theorems:
one PMT with a negative raw gain and one SiPM. -/
def sampleDB : LoadDB where
  DataPMT := fun _ => ⟨[-2], [1], [1], [1]⟩
  DataSiPM := fun _ => ⟨[0], [0], [1]⟩

/-- A concrete `PmapCity` built with the Python default arguments. -/
def samplePmap : PmapCity :=
  PmapCity.init sampleDB 0 none none "ZLIB4" 10000 28000 (5 * units.adc)
    100 (3 * units.adc) ((1 : Rat) / 5 * units.adc) (1 * units.adc)
    100 (5 * units.pes) none none (30 * units.pes)

/-- Mapping each index of `List.range l.length` to the corresponding
element recovers the list. -/
lemma map_getD_range (l : List Rat) :
    (List.range l.length).map (fun i => l.getD i 0) = l := by
  induction l with
  | nil => simp
  | cons a t ih =>
    rw [List.length_cons, List.range_succ_eq_map, List.map_cons, List.map_map]
    have h : ((fun i => (a :: t).getD i 0) ∘ Nat.succ) = fun i => t.getD i 0 := by
      funext i
      simp
    rw [h, ih]
    simp

/-- C1: the `monte_carlo` classification of a `City` is a pure function
of the run identifier only: it is true exactly when `run_number ≤ 0`,
two cities with equal run identifiers classify identically (so no other
field influences it, and as a pure function it has no side effect on
the city), and run identifiers 0 and -5 classify as simulated while 1
classifies as real data. -/
theorem C1_monte_carlo_pure :
    (∀ c : City, c.monte_carlo = true ↔ c.run_number ≤ 0) ∧
    (∀ c₁ c₂ : City, c₁.run_number = c₂.run_number →
      c₁.monte_carlo = c₂.monte_carlo) ∧
    (∀ (db : LoadDB) (fi : Option (List String)) (fo : Option String)
        (cp : String) (np : Nat),
      (City.init db 0 fi fo cp np).monte_carlo = true ∧
      (City.init db (-5) fi fo cp np).monte_carlo = true ∧
      (City.init db 1 fi fo cp np).monte_carlo = false) := by
  refine ⟨fun c => ?_, fun c₁ c₂ h => ?_, fun db fi fo cp np => ?_⟩
  · simp [City.monte_carlo]
  · simp [City.monte_carlo, h]
  · refine ⟨?_, ?_, ?_⟩ <;> simp [City.monte_carlo, City.init]

/-- C2: whatever signs the calibration database returns, every entry of
`adc_to_pes` stored by `City.__init__` is non-negative, because the
constructor normalizes the sign with an absolute value. -/
theorem C2_adc_to_pes_nonneg (db : LoadDB) (run_number : Int)
    (files_in : Option (List String)) (file_out : Option String)
    (compression : String) (nprint : Nat) :
    ∀ x ∈ (City.init db run_number files_in file_out compression
      nprint).adc_to_pes, 0 ≤ x := by
  intro x hx
  simp only [City.init, List.mem_map] at hx
  obtain ⟨v, _, rfl⟩ := hx
  exact abs_nonneg v

/-- Witness for C2 at a concrete database whose PMT gain entry is the
negative value -2: the stored entry 2 is non-negative. -/
theorem C2_adc_to_pes_nonneg_witness :
    (2 : Rat) ∈ (City.init sampleDB 1 none none "ZLIB4" 10000).adc_to_pes ∧
    (0 : Rat) ≤ 2 := by
  have hm : (2 : Rat) ∈
      (City.init sampleDB 1 none none "ZLIB4" 10000).adc_to_pes := by
    simp [City.init, sampleDB]
  exact ⟨hm, C2_adc_to_pes_nonneg sampleDB 1 none none "ZLIB4" 10000 2 hm⟩

/-- C3: every setter of the city hierarchy changes only the parameter
fields it names; in particular none of them touches the seven
calibration-context fields xs, ys, adc_to_pes, sipm_adc_to_pes,
coeff_c, coeff_blr, noise_rms (for the subclass setters the whole
inherited `City` part, which holds all seven, is preserved verbatim). -/
theorem C3_setters_frame :
    (∀ (c : City) (n : Nat),
      (c.set_print n).nprint = n ∧
      (c.set_print n).run_number = c.run_number ∧
      (c.set_print n).input_files = c.input_files ∧
      (c.set_print n).output_file = c.output_file ∧
      (c.set_print n).compression = c.compression ∧
      (c.set_print n).xs = c.xs ∧
      (c.set_print n).ys = c.ys ∧
      (c.set_print n).adc_to_pes = c.adc_to_pes ∧
      (c.set_print n).sipm_adc_to_pes = c.sipm_adc_to_pes ∧
      (c.set_print n).coeff_c = c.coeff_c ∧
      (c.set_print n).coeff_blr = c.coeff_blr ∧
      (c.set_print n).noise_rms = c.noise_rms) ∧
    (∀ (c : City) (f : Option (List String)),
      (c.set_input_files f).input_files = f ∧
      (c.set_input_files f).run_number = c.run_number ∧
      (c.set_input_files f).nprint = c.nprint ∧
      (c.set_input_files f).output_file = c.output_file ∧
      (c.set_input_files f).compression = c.compression ∧
      (c.set_input_files f).xs = c.xs ∧
      (c.set_input_files f).ys = c.ys ∧
      (c.set_input_files f).adc_to_pes = c.adc_to_pes ∧
      (c.set_input_files f).sipm_adc_to_pes = c.sipm_adc_to_pes ∧
      (c.set_input_files f).coeff_c = c.coeff_c ∧
      (c.set_input_files f).coeff_blr = c.coeff_blr ∧
      (c.set_input_files f).noise_rms = c.noise_rms) ∧
    (∀ (c : City) (f : Option String),
      (c.set_output_file f).output_file = f ∧
      (c.set_output_file f).run_number = c.run_number ∧
      (c.set_output_file f).nprint = c.nprint ∧
      (c.set_output_file f).input_files = c.input_files ∧
      (c.set_output_file f).compression = c.compression ∧
      (c.set_output_file f).xs = c.xs ∧
      (c.set_output_file f).ys = c.ys ∧
      (c.set_output_file f).adc_to_pes = c.adc_to_pes ∧
      (c.set_output_file f).sipm_adc_to_pes = c.sipm_adc_to_pes ∧
      (c.set_output_file f).coeff_c = c.coeff_c ∧
      (c.set_output_file f).coeff_blr = c.coeff_blr ∧
      (c.set_output_file f).noise_rms = c.noise_rms) ∧
    (∀ (c : City) (s : String),
      (c.set_compression s).compression = s ∧
      (c.set_compression s).run_number = c.run_number ∧
      (c.set_compression s).nprint = c.nprint ∧
      (c.set_compression s).input_files = c.input_files ∧
      (c.set_compression s).output_file = c.output_file ∧
      (c.set_compression s).xs = c.xs ∧
      (c.set_compression s).ys = c.ys ∧
      (c.set_compression s).adc_to_pes = c.adc_to_pes ∧
      (c.set_compression s).sipm_adc_to_pes = c.sipm_adc_to_pes ∧
      (c.set_compression s).coeff_c = c.coeff_c ∧
      (c.set_compression s).coeff_blr = c.coeff_blr ∧
      (c.set_compression s).noise_rms = c.noise_rms) ∧
    (∀ (d : DeconvolutionCity) (nb : Nat) (tt : Rat),
      (d.set_blr nb tt).n_baseline = nb ∧
      (d.set_blr nb tt).thr_trigger = tt ∧
      (d.set_blr nb tt).toCity = d.toCity) ∧
    (∀ (c : CalibratedCity) (nm : Nat) (tm ts1 ts2 : Rat),
      (c.set_csum nm tm ts1 ts2).n_MAU = nm ∧
      (c.set_csum nm tm ts1 ts2).thr_MAU = tm ∧
      (c.set_csum nm tm ts1 ts2).thr_csum_s1 = ts1 ∧
      (c.set_csum nm tm ts1 ts2).thr_csum_s2 = ts2 ∧
      (c.set_csum nm tm ts1 ts2).toDeconvolutionCity = c.toDeconvolutionCity ∧
      (c.set_csum nm tm ts1 ts2).n_MAU_sipm = c.n_MAU_sipm ∧
      (c.set_csum nm tm ts1 ts2).thr_sipm = c.thr_sipm) ∧
    (∀ (c : CalibratedCity) (ns : Nat) (ts : Rat),
      (c.set_sipm ns ts).n_MAU_sipm = ns ∧
      (c.set_sipm ns ts).thr_sipm = ts ∧
      (c.set_sipm ns ts).toDeconvolutionCity = c.toDeconvolutionCity ∧
      (c.set_sipm ns ts).n_MAU = c.n_MAU ∧
      (c.set_sipm ns ts).thr_MAU = c.thr_MAU ∧
      (c.set_sipm ns ts).thr_csum_s1 = c.thr_csum_s1 ∧
      (c.set_sipm ns ts).thr_csum_s2 = c.thr_csum_s2) ∧
    (∀ (c : PmapCity) (s1 s2 : Option S12Params) (th : Rat),
      (c.set_pmap_params s1 s2 th).s1_params = s1 ∧
      (c.set_pmap_params s1 s2 th).s2_params = s2 ∧
      (c.set_pmap_params s1 s2 th).thr_sipm_s2 = th ∧
      (c.set_pmap_params s1 s2 th).toCalibratedCity = c.toCalibratedCity) :=
  ⟨fun c n => ⟨rfl, rfl, rfl, rfl, rfl, rfl, rfl, rfl, rfl, rfl, rfl, rfl⟩,
   fun c f => ⟨rfl, rfl, rfl, rfl, rfl, rfl, rfl, rfl, rfl, rfl, rfl, rfl⟩,
   fun c f => ⟨rfl, rfl, rfl, rfl, rfl, rfl, rfl, rfl, rfl, rfl, rfl, rfl⟩,
   fun c s => ⟨rfl, rfl, rfl, rfl, rfl, rfl, rfl, rfl, rfl, rfl, rfl, rfl⟩,
   fun d nb tt => ⟨rfl, rfl, rfl⟩,
   fun c nm tm ts1 ts2 => ⟨rfl, rfl, rfl, rfl, rfl, rfl, rfl⟩,
   fun c ns ts => ⟨rfl, rfl, rfl, rfl, rfl, rfl, rfl⟩,
   fun c s1 s2 th => ⟨rfl, rfl, rfl, rfl⟩⟩

/-- The two sequences returned by `cpf.wfzs` have equal length. -/
lemma wfzs_length_eq (wf : List Rat) (t : Rat) :
    (cpf.wfzs wf t).1.length = (cpf.wfzs wf t).2.length := by
  simp [cpf.wfzs]

/-- The index sequence returned by `cpf.wfzs` is strictly increasing. -/
lemma wfzs_pairwise (wf : List Rat) (t : Rat) :
    List.Pairwise (· < ·) (cpf.wfzs wf t).2 :=
  (List.pairwise_lt_range wf.length).filter _

/-- Every amplitude returned by `cpf.wfzs` exceeds the threshold. -/
lemma wfzs_fst_gt (wf : List Rat) (t : Rat) :
    ∀ a ∈ (cpf.wfzs wf t).1, t < a := by
  intro a ha
  simp only [cpf.wfzs, List.mem_map, List.mem_filter, List.mem_range,
    decide_eq_true_eq] at ha
  obtain ⟨i, ⟨_, hlt⟩, rfl⟩ := ha
  exact hlt

/-- On an input every sample of which exceeds the threshold, `cpf.wfzs`
keeps everything: the amplitudes are the input itself and the indices
are all of `List.range`. -/
lemma wfzs_all_above (wf : List Rat) (t : Rat) (h : ∀ x ∈ wf, t < x) :
    cpf.wfzs wf t = (wf, List.range wf.length) := by
  have hfil : (List.range wf.length).filter
      (fun i => decide (t < wf.getD i 0)) = List.range wf.length := by
    rw [List.filter_eq_self]
    intro i hi
    rw [List.mem_range] at hi
    rw [List.getD_eq_getElem _ _ hi, decide_eq_true_eq]
    exact h _ (List.getElem_mem hi)
  show ((List.range wf.length).filter _ |>.map _,
    (List.range wf.length).filter _) = _
  rw [hfil, map_getD_range]

/-- On an input every sample of which is below the threshold, `cpf.wfzs`
returns the empty pair. -/
lemma wfzs_all_below (wf : List Rat) (t : Rat) (h : ∀ x ∈ wf, x < t) :
    cpf.wfzs wf t = ([], []) := by
  have hfil : (List.range wf.length).filter
      (fun i => decide (t < wf.getD i 0)) = [] := by
    rw [List.filter_eq_nil_iff]
    intro i hi
    rw [List.mem_range] at hi
    rw [List.getD_eq_getElem _ _ hi, decide_eq_true_eq]
    exact not_lt_of_gt (h _ (List.getElem_mem hi))
  show ((List.range wf.length).filter _ |>.map _,
    (List.range wf.length).filter _) = _
  rw [hfil]
  rfl

/-- C6: for every calibrated sum signal and every threshold, `csum_zs`
returns parallel sequences of equal length whose indices are strictly
increasing and whose amplitudes all exceed the threshold, and an input
whose samples all lie below the threshold yields the empty pair rather
than an error. -/
theorem C6_csum_zs_invariants (c : CalibratedCity) (csum : List Rat)
    (threshold : Rat) :
    (c.csum_zs csum threshold).1.length = (c.csum_zs csum threshold).2.length ∧
    List.Pairwise (· < ·) (c.csum_zs csum threshold).2 ∧
    (∀ a ∈ (c.csum_zs csum threshold).1, threshold < a) ∧
    ((∀ x ∈ csum, x < threshold) → c.csum_zs csum threshold = ([], [])) :=
  ⟨wfzs_length_eq csum threshold, wfzs_pairwise csum threshold,
   wfzs_fst_gt csum threshold, wfzs_all_below csum threshold⟩

/-- C7: zero suppression is deterministic and idempotent: a signal all
of whose samples exceed the threshold is returned unchanged as the
amplitude sequence, applying `csum_zs` a second time to the surviving
amplitudes at the same threshold reproduces them exactly, and equal
inputs with equal thresholds give equal outputs. -/
theorem C7_csum_zs_idempotent (c : CalibratedCity) (csum : List Rat)
    (threshold : Rat) :
    ((∀ x ∈ csum, threshold < x) → (c.csum_zs csum threshold).1 = csum) ∧
    (c.csum_zs (c.csum_zs csum threshold).1 threshold).1 =
      (c.csum_zs csum threshold).1 ∧
    (∀ (csum2 : List Rat) (t2 : Rat), csum = csum2 → threshold = t2 →
      c.csum_zs csum threshold = c.csum_zs csum2 t2) := by
  refine ⟨fun h => ?_, ?_, fun csum2 t2 h1 h2 => by rw [h1, h2]⟩
  · show (cpf.wfzs csum threshold).1 = csum
    rw [wfzs_all_above csum threshold h]
  · show (cpf.wfzs (cpf.wfzs csum threshold).1 threshold).1 =
      (cpf.wfzs csum threshold).1
    rw [wfzs_all_above _ threshold (wfzs_fst_gt csum threshold)]

/-- When some waveform is shorter than `n_baseline`, the modelled
deconvolution primitive fails with the Configuration Error. -/
lemma deconv_pmt_error (RWF : List (List Rat)) (cc cb : List Rat) (n : Nat)
    (tt : Rat) (h : ∃ wf ∈ RWF, wf.length < n) :
    blr.deconv_pmt RWF cc cb n tt = Except.error
      (PipelineError.configurationError
        "n_baseline exceeds the waveform length") := by
  have hany : RWF.any (fun wf => wf.length < n) = true := by
    rw [List.any_eq_true]
    obtain ⟨w, hw, hl⟩ := h
    exact ⟨w, hw, by simpa using hl⟩
  simp [blr.deconv_pmt, hany]

/-- When every waveform is at least `n_baseline` long, the modelled
deconvolution primitive succeeds. -/
lemma deconv_pmt_ok (RWF : List (List Rat)) (cc cb : List Rat) (n : Nat)
    (tt : Rat) (h : ∀ wf ∈ RWF, n ≤ wf.length) :
    blr.deconv_pmt RWF cc cb n tt =
      Except.ok (RWF.map (fun wf => wf.map (fun v => v))) := by
  have hany : RWF.any (fun wf => wf.length < n) = false := by
    rw [List.any_eq_false]
    intro w hw
    simpa using h w hw
  simp [blr.deconv_pmt, hany]

/-- C4: `deconv_pmt` fails with a Configuration Error exactly when some
raw primary waveform is shorter than the configured `n_baseline`, and
succeeds exactly when every waveform is at least `n_baseline` long. -/
theorem C4_deconv_pmt_configuration_error (d : DeconvolutionCity)
    (RWF : List (List Rat)) :
    ((∃ wf ∈ RWF, wf.length < d.n_baseline) ↔
      d.deconv_pmt RWF = Except.error (PipelineError.configurationError
        "n_baseline exceeds the waveform length")) ∧
    ((∀ wf ∈ RWF, d.n_baseline ≤ wf.length) ↔
      ∃ out, d.deconv_pmt RWF = Except.ok out) := by
  rcases Classical.em (∃ wf ∈ RWF, wf.length < d.n_baseline) with hb | hb
  · have herr := deconv_pmt_error RWF d.coeff_c d.coeff_blr d.n_baseline
      d.thr_trigger hb
    constructor
    · exact ⟨fun _ => herr, fun _ => hb⟩
    · constructor
      · intro hall
        obtain ⟨w, hw, hl⟩ := hb
        exact absurd (hall w hw) (by omega)
      · intro ⟨out, hout⟩
        rw [DeconvolutionCity.deconv_pmt, herr] at hout
        exact absurd hout (by simp)
  · have hall : ∀ wf ∈ RWF, d.n_baseline ≤ wf.length := by
      intro w hw
      by_contra hlt
      exact hb ⟨w, hw, by omega⟩
    have hok := deconv_pmt_ok RWF d.coeff_c d.coeff_blr d.n_baseline
      d.thr_trigger hall
    constructor
    · constructor
      · intro hex
        exact absurd hex hb
      · intro herr
        rw [DeconvolutionCity.deconv_pmt, hok] at herr
        exact absurd herr (by simp)
    · exact ⟨fun _ => ⟨_, hok⟩, fun _ => hall⟩

/-- A violating peak-search parameter record: minimum time greater than
maximum time, minimum length greater than maximum length, stride and
rebinning factor zero. -/
def badS12Params : S12Params :=
  { tmin := 10, tmax := 0, stride := 0, lmin := 5, lmax := 2, rebin := 0 }

/-- Counterexample to C5: `S12Params` is a plain `namedtuple` and
`set_pmap_params` performs plain attribute assignments, so a parameter
record violating every stated invariant (tmin > tmax, lmin > lmax,
stride = 0, rebin = 0) is constructed and installed without any
Configuration Error: the city afterwards holds exactly the violating
record. -/
theorem C5_counterexample :
    (samplePmap.set_pmap_params (some badS12Params) (some badS12Params)
      30).s1_params = some badS12Params ∧
    (samplePmap.set_pmap_params (some badS12Params) (some badS12Params)
      30).s2_params = some badS12Params ∧
    badS12Params.tmax < badS12Params.tmin ∧
    badS12Params.lmax < badS12Params.lmin ∧
    badS12Params.stride = 0 ∧
    badS12Params.rebin = 0 := by
  refine ⟨rfl, rfl, ?_, ?_, rfl, rfl⟩
  · norm_num [badS12Params]
  · norm_num [badS12Params]

/-- C5 (amended): neither `S12Params` construction nor
`set_pmap_params` validates the peak-search parameters; the record
stores the six fields exactly as given and `set_pmap_params` installs
any records unchanged, silently, with no Configuration Error. -/
theorem C5_no_validation :
    (∀ (tmin tmax : Rat) (stride lmin lmax rebin : Nat),
      (S12Params.mk tmin tmax stride lmin lmax rebin).tmin = tmin ∧
      (S12Params.mk tmin tmax stride lmin lmax rebin).tmax = tmax ∧
      (S12Params.mk tmin tmax stride lmin lmax rebin).stride = stride ∧
      (S12Params.mk tmin tmax stride lmin lmax rebin).lmin = lmin ∧
      (S12Params.mk tmin tmax stride lmin lmax rebin).lmax = lmax ∧
      (S12Params.mk tmin tmax stride lmin lmax rebin).rebin = rebin) ∧
    (∀ (c : PmapCity) (s1 s2 : Option S12Params) (th : Rat),
      (c.set_pmap_params s1 s2 th).s1_params = s1 ∧
      (c.set_pmap_params s1 s2 th).s2_params = s2 ∧
      (c.set_pmap_params s1 s2 th).thr_sipm_s2 = th) :=
  ⟨fun _ _ _ _ _ _ => ⟨rfl, rfl, rfl, rfl, rfl, rfl⟩,
   fun _ _ _ _ => ⟨rfl, rfl, rfl⟩⟩

/-- C8: every entry of the S2Si map built by `find_S2Si` is the actual
summed contribution of an actual selected sensor over the peak with the
same identifier and exceeds `thr_sipm_s2`; the identifiers of the map
are exactly the peak identifiers of the S2 peaks of the same event; and
a peak for which no selected sensor exceeds the threshold is mapped to
an empty sensor map rather than causing an error. -/
theorem C8_find_S2Si_invariants (c : PmapCity)
    (S2 : List (List (Nat × Rat))) (sipmzs : List (List Rat)) :
    (∀ pr ∈ c.find_S2Si S2 sipmzs, ∀ e ∈ pr.2,
      ∃ pe ∈ S2.enum, pr.1 = pe.1 ∧
        ∃ sw ∈ cpf.select_sipm sipmzs,
          e = (sw.1, spSum pe.2 sw.2) ∧ c.thr_sipm_s2 < spSum pe.2 sw.2) ∧
    ((c.find_S2Si S2 sipmzs).map Prod.fst = List.range S2.length) ∧
    (∀ pe ∈ S2.enum,
      (∀ sw ∈ cpf.select_sipm sipmzs, spSum pe.2 sw.2 ≤ c.thr_sipm_s2) →
      (pe.1, ([] : List (Nat × Rat))) ∈ c.find_S2Si S2 sipmzs) := by
  refine ⟨?_, ?_, ?_⟩
  · intro pr hpr e he
    simp only [PmapCity.find_S2Si, pmp.sipm_s2_dict, List.mem_map] at hpr
    obtain ⟨pe, hpe, rfl⟩ := hpr
    simp only [List.mem_filterMap] at he
    obtain ⟨sw, hsw, hg⟩ := he
    by_cases hlt : c.thr_sipm_s2 < spSum pe.2 sw.2
    · rw [if_pos hlt] at hg
      obtain rfl := Option.some_injective _ hg
      exact ⟨pe, hpe, rfl, sw, hsw, rfl, hlt⟩
    · rw [if_neg hlt] at hg
      exact absurd hg (by simp)
  · simp only [PmapCity.find_S2Si, pmp.sipm_s2_dict, List.map_map]
    have hc : (Prod.fst ∘ fun pe : Nat × List (Nat × Rat) =>
        (pe.1, (cpf.select_sipm sipmzs).filterMap (fun sw =>
          if c.thr_sipm_s2 < spSum pe.2 sw.2
          then some (sw.1, spSum pe.2 sw.2) else none))) = Prod.fst := rfl
    rw [hc, List.enum_map_fst]
  · intro pe hpe hall
    simp only [PmapCity.find_S2Si, pmp.sipm_s2_dict, List.mem_map]
    refine ⟨pe, hpe, ?_⟩
    have hnil : (cpf.select_sipm sipmzs).filterMap (fun sw =>
        if c.thr_sipm_s2 < spSum pe.2 sw.2
        then some (sw.1, spSum pe.2 sw.2) else none) = [] := by
      rw [List.filterMap_eq_nil_iff]
      intro sw hsw
      rw [if_neg (not_lt_of_ge (hall sw hsw))]
    rw [hnil]

/-- Boundary peak-search parameters used to exercise the acceptance
rule: window [0, 1000], stride 1, length bounds [3, 5]. -/
def boundaryParams : S12Params :=
  { tmin := 0, tmax := 1000, stride := 1, lmin := 3, lmax := 5, rebin := 1 }

/-- C9: every peak returned by the modelled peak search has a sample
count within [lmin, lmax]; at the boundary parameters a
stride-contiguous run of exactly lmin = 3 samples is accepted, a run of
lmin - 1 = 2 samples is silently rejected (the result is the empty
list, not an error), a run of exactly lmax = 5 samples is accepted, a
run of lmax + 1 = 6 samples is silently rejected, and the run still
open when the stream is exhausted is closed with the same rule, whether
it passes (trailing run of 3) or fails (trailing run of 2). -/
theorem C9_find_S12_length_bounds :
    (∀ (p : S12Params) (ene : List Rat) (indx : List Nat),
      ∀ r ∈ cpf.find_S12 ene indx p,
        p.lmin ≤ r.length ∧ r.length ≤ p.lmax) ∧
    cpf.find_S12 [1, 1, 1] [0, 1, 2] boundaryParams =
      [[(0, 1), (1, 1), (2, 1)]] ∧
    cpf.find_S12 [1, 1] [0, 1] boundaryParams = [] ∧
    cpf.find_S12 [1, 1, 1, 1, 1] [0, 1, 2, 3, 4] boundaryParams =
      [[(0, 1), (1, 1), (2, 1), (3, 1), (4, 1)]] ∧
    cpf.find_S12 [1, 1, 1, 1, 1, 1] [0, 1, 2, 3, 4, 5] boundaryParams = [] ∧
    cpf.find_S12 [1, 1, 1, 1, 1, 1] [0, 1, 2, 10, 11, 12] boundaryParams =
      [[(0, 1), (1, 1), (2, 1)], [(10, 1), (11, 1), (12, 1)]] ∧
    cpf.find_S12 [1, 1, 1, 1, 1] [0, 1, 2, 10, 11] boundaryParams =
      [[(0, 1), (1, 1), (2, 1)]] := by
  refine ⟨?_, by decide, by decide, by decide, by decide, by decide, by decide⟩
  intro p ene indx r hr
  simp only [cpf.find_S12, List.mem_filter, decide_eq_true_eq] at hr
  exact hr.2

/-- C10: a `PmapCity` constructed with the Python default arguments
stores `None` for both peak-search parameter records, and calling
`find_S12` in that state fails with the attribute error raised by
`None._asdict()` instead of returning any peaks: construction does not
prevent the stage from existing in this unusable state. -/
theorem C10_find_S12_unset_params :
    samplePmap.s1_params = none ∧
    samplePmap.s2_params = none ∧
    samplePmap.find_S12 [1, 1, 1] [0, 1, 2] [1, 1, 1] [0, 1, 2] =
      Except.error (PipelineError.attributeError
        "NoneType object has no attribute _asdict") :=
  ⟨rfl, rfl, rfl⟩
